import Mathlib

/-!
A verification development for the Wise payment-integration module
(`apps/payments/wise.py`): a shallow embedding of its data model and
operations, with theorems about the webhook receiver, the
balance-credited handler, statement fetching, account discovery,
business-profile resolution and the configuration health check.

External collaborators (the web framework, the ORM, the provider SDK's
HTTP client and the cryptographic primitives) are modelled as explicit
parameters; database tables are modelled as lists of rows, and the
handler's effects are returned explicitly.
-/

/-! ## Data model (`models.payment`) -/

/-- A `BankAccount` row: one currency-denominated account held with the
provider.  Mirrors the fields this module reads and writes. -/
structure BankAccount where
  id : Nat := 0
  borderless_account_id : Int
  currency : String
  sort_code : Option String := none
  acct_id : Option String := none
  active : Bool := false
  institution : String := ""
  address : String := ""
  swift : Option String := none
  iban : Option String := none
deriving DecidableEq, Repr

/-- A `BankTransaction` row: one credited transfer.  The natural key used
for duplicate detection is (account_id, posted, type, payee). -/
structure BankTransaction where
  account_id : Nat
  posted : String
  type : String
  amount : Int
  payee : String
deriving DecidableEq, Repr

/-! ## Statement payload

One entry of the statement returned by the provider
(`statement.transactions` in `wise_statement`): a type, a date, an
amount, and nested details carrying the detail type and the payment
reference. -/

structure TxnDetails where
  type : String
  paymentReference : String
deriving DecidableEq, Repr

structure StmtTransaction where
  type : String
  date : String
  amountValue : Int
  details : TxnDetails
deriving DecidableEq, Repr

/-! ## Reconciliation (`wise_balance_credit`, statement loop)

The handler's loop over `statement.transactions`: entries whose type is
not `"CREDIT"` are skipped; otherwise the transaction table is searched
for a row matching
`filter_by(account_id=..., posted=transaction.date,
type=transaction.details.type.lower(), payee=transaction.details.paymentReference)`
and a new row is appended only when none matches.  The table is modelled
as the list of rows visible to the query (the session autoflushes, so
rows created earlier in the same loop are visible). -/

/-- The `filter_by` predicate of the duplicate-detection query. -/
def txnMatches (acctId : Nat) (t : StmtTransaction) (row : BankTransaction) : Bool :=
  row.account_id == acctId && row.posted == t.date &&
    row.type == t.details.type.toLower && row.payee == t.details.paymentReference

/-- The `BankTransaction(...)` constructed for an unmatched credit entry. -/
def mkTxn (acctId : Nat) (t : StmtTransaction) : BankTransaction :=
  { account_id := acctId
    posted := t.date
    type := t.details.type.toLower
    amount := t.amountValue
    payee := t.details.paymentReference }

/-- The reconciliation loop of `wise_balance_credit` over the statement. -/
def reconcile (acctId : Nat) (db : List BankTransaction) :
    List StmtTransaction → List BankTransaction
  | [] => db
  | t :: rest =>
    if t.type ≠ "CREDIT" then reconcile acctId db rest
    else if db.any (txnMatches acctId t) then reconcile acctId db rest
    else reconcile acctId (db ++ [mkTxn acctId t]) rest

/-- Reconciliation only appends rows: every existing row survives. -/
theorem mem_reconcile {acctId : Nat} {db : List BankTransaction}
    {stmt : List StmtTransaction} {a : BankTransaction} (h : a ∈ db) :
    a ∈ reconcile acctId db stmt := by
  induction stmt generalizing db with
  | nil => simpa [reconcile] using h
  | cons t rest ih =>
    simp only [reconcile]
    split
    · exact ih h
    · split
      · exact ih h
      · exact ih (by simp [h])

/-- Any row predicate already satisfied stays satisfied after reconciliation. -/
theorem any_reconcile {acctId : Nat} {db : List BankTransaction}
    {stmt : List StmtTransaction} {p : BankTransaction → Bool}
    (h : db.any p = true) : (reconcile acctId db stmt).any p = true := by
  rcases List.any_eq_true.mp h with ⟨a, ha, hpa⟩
  exact List.any_eq_true.mpr ⟨a, mem_reconcile ha, hpa⟩

/-- A freshly constructed row matches the query key it was built from. -/
theorem txnMatches_mkTxn (acctId : Nat) (t : StmtTransaction) :
    txnMatches acctId t (mkTxn acctId t) = true := by
  simp [txnMatches, mkTxn]

/-- After reconciliation, every credit entry of the statement has a
matching row in the resulting table. -/
theorem reconcile_covers {acctId : Nat} {db : List BankTransaction}
    {stmt : List StmtTransaction} {t : StmtTransaction}
    (hmem : t ∈ stmt) (hc : t.type = "CREDIT") :
    (reconcile acctId db stmt).any (txnMatches acctId t) = true := by
  induction stmt generalizing db with
  | nil => cases hmem
  | cons t0 rest ih =>
    rcases List.mem_cons.mp hmem with rfl | hmem'
    · simp only [reconcile]
      rw [if_neg (by simp [hc])]
      by_cases hm : db.any (txnMatches acctId t) = true
      · rw [if_pos hm]
        exact any_reconcile hm
      · rw [if_neg hm]
        exact any_reconcile (List.any_eq_true.mpr
          ⟨mkTxn acctId t, by simp, txnMatches_mkTxn acctId t⟩)
    · simp only [reconcile]
      split
      · exact ih hmem'
      · split
        · exact ih hmem'
        · exact ih hmem'

/-- If every credit entry of the statement already has a matching row,
reconciliation changes nothing. -/
theorem reconcile_eq_self {acctId : Nat} {db : List BankTransaction}
    {stmt : List StmtTransaction}
    (h : ∀ t ∈ stmt, t.type = "CREDIT" → db.any (txnMatches acctId t) = true) :
    reconcile acctId db stmt = db := by
  induction stmt with
  | nil => rfl
  | cons t rest ih =>
    simp only [reconcile]
    by_cases hc : t.type = "CREDIT"
    · rw [if_neg (by simp [hc]), if_pos (h t (by simp) hc)]
      exact ih fun u hu hcu => h u (by simp [hu]) hcu
    · rw [if_pos hc]
      exact ih fun u hu hcu => h u (by simp [hu]) hcu

/-- C1: Running the balance-credited handler's reconciliation twice over
the same statement produces exactly the same transaction table as running
it once; moreover a single credit entry creates exactly one row when its
natural key (account id, posted date, lower-cased detail type, payment
reference) has no match, and no row when it has one. -/
theorem reconcile_idempotent (acctId : Nat) (db : List BankTransaction)
    (stmt : List StmtTransaction) (t : StmtTransaction) :
    reconcile acctId (reconcile acctId db stmt) stmt = reconcile acctId db stmt ∧
    reconcile acctId db [t] =
      (if t.type = "CREDIT" ∧ ¬ db.any (txnMatches acctId t) = true
       then db ++ [mkTxn acctId t] else db) := by
  constructor
  · exact reconcile_eq_self fun u hu hcu => reconcile_covers hu hcu
  · by_cases hc : t.type = "CREDIT"
    · by_cases hm : db.any (txnMatches acctId t) = true
      · rw [if_neg (by simp [hc, hm])]
        simp [reconcile, hc, hm]
      · rw [if_pos ⟨hc, hm⟩]
        simp [reconcile, hc, hm]
    · rw [if_neg (by simp [hc])]
      simp [reconcile, hc]

/-! ## Account discovery (`_collect_bank_accounts`)

A borderless account groups one balance per currency; a balance carries
optional bank details.  `Option.none` models both a falsy field and a
missing attribute (the source skips either, via the falsiness checks and
the `AttributeError` handler). -/

structure BankAddress where
  addressFirstLine : String
  city : String
  postCode : Option String
  country : String
deriving DecidableEq, Repr

structure BankDetails where
  currency : String
  bankCode : String
  accountNumber : String
  bankName : String
  bankAddress : Option BankAddress
  swift : Option String
  iban : Option String
deriving DecidableEq, Repr

structure Balance where
  bankDetails : Option BankDetails
deriving DecidableEq, Repr

structure BorderlessAccount where
  id : Int
  balances : List Balance
deriving DecidableEq, Repr

/-- `accountNumber.replace(" ", "")`: remove every space character. -/
def removeSpaces (s : String) : String :=
  String.mk (s.toList.filter (fun c => c != ' '))

/-- The Python slice `[-8:]` on a string: drop all but the final 8
characters (the whole string when shorter). -/
def takeRight8 (s : String) : String :=
  String.mk (s.toList.drop (s.toList.length - 8))

/-- The body of the loop in `_collect_bank_accounts` for one balance:
`none` when the balance is skipped, otherwise the produced account. -/
def collectBankAccount (borderlessId : Int) (bal : Balance) : Option BankAccount :=
  match bal.bankDetails with
  | none => none
  | some bd =>
    match bd.bankAddress with
    | none => none
    | some baddr =>
      let address := String.intercalate ", "
        [baddr.addressFirstLine,
         baddr.city ++ " " ++ baddr.postCode.getD "",
         baddr.country]
      -- sort_code = account_number = None; both set only for GBP
      let sc_an : Option String × Option String :=
        if bd.currency = "GBP" then
          (some bd.bankCode,
           some (if bd.accountNumber.length = 8 then bd.accountNumber
                 else takeRight8 (removeSpaces bd.accountNumber)))
        else (none, none)
      some { borderless_account_id := borderlessId
             currency := bd.currency
             sort_code := sc_an.1
             acct_id := sc_an.2
             active := false
             institution := bd.bankName
             address := address
             swift := bd.swift
             iban := bd.iban }

/-- `_collect_bank_accounts`: all accounts produced for one borderless
account. -/
def collect_bank_accounts (ba : BorderlessAccount) : List BankAccount :=
  ba.balances.filterMap (collectBankAccount ba.id)

/-- Spec-side phrasing of C2: the last `n` characters of a string. -/
def specLastChars (n : Nat) (s : String) : String :=
  String.mk ((s.toList.reverse.take n).reverse)

/-- Spec-side phrasing of C2's account-number rule: used unchanged when
exactly 8 characters long, otherwise the last 8 characters of the raw
value after removing all spaces. -/
def specGbpAccountNumber (raw : String) : String :=
  if raw.length = 8 then raw else specLastChars 8 (removeSpaces raw)

/-- The source's slice-based derivation agrees with the spec's
last-8-characters phrasing. -/
theorem gbp_account_number_spec (raw : String) :
    (if raw.length = 8 then raw else takeRight8 (removeSpaces raw)) =
      specGbpAccountNumber raw := by
  unfold specGbpAccountNumber
  by_cases h : raw.length = 8
  · simp [h]
  · rw [if_neg h, if_neg h]
    unfold takeRight8 specLastChars
    congr 1
    rw [← List.rtake_eq_reverse_take_reverse]
    simp [List.rtake]

/-- C2: for a GBP balance with bank details, discovery produces an account
whose sort code is the provider's bank-code field and whose account number
is the raw value when exactly 8 characters, else the last 8 characters of
the raw value with spaces removed. -/
theorem collect_gbp_fields (ba : BorderlessAccount) (bal : Balance)
    (bd : BankDetails) (baddr : BankAddress)
    (hmem : bal ∈ ba.balances) (hbd : bal.bankDetails = some bd)
    (haddr : bd.bankAddress = some baddr) (hcur : bd.currency = "GBP") :
    ∃ a, collectBankAccount ba.id bal = some a ∧ a ∈ collect_bank_accounts ba ∧
      a.sort_code = some bd.bankCode ∧
      a.acct_id = some (specGbpAccountNumber bd.accountNumber) := by
  have hA : collectBankAccount ba.id bal = some
      { borderless_account_id := ba.id
        currency := bd.currency
        sort_code := some bd.bankCode
        acct_id := some (if bd.accountNumber.length = 8 then bd.accountNumber
                         else takeRight8 (removeSpaces bd.accountNumber))
        active := false
        institution := bd.bankName
        address := String.intercalate ", "
          [baddr.addressFirstLine,
           baddr.city ++ " " ++ baddr.postCode.getD "",
           baddr.country]
        swift := bd.swift
        iban := bd.iban } := by
    simp [collectBankAccount, hbd, haddr, hcur]
  exact ⟨_, hA, List.mem_filterMap.mpr ⟨bal, hmem, hA⟩, rfl,
    by simp [gbp_account_number_spec]⟩

/-- C7: for a non-GBP balance with bank details, discovery produces an
account with no sort code and no account number. -/
theorem collect_non_gbp_fields (bid : Int) (bal : Balance)
    (bd : BankDetails) (baddr : BankAddress)
    (hbd : bal.bankDetails = some bd) (haddr : bd.bankAddress = some baddr)
    (hcur : bd.currency ≠ "GBP") :
    ∃ a, collectBankAccount bid bal = some a ∧
      a.sort_code = none ∧ a.acct_id = none := by
  have hA : collectBankAccount bid bal = some
      { borderless_account_id := bid
        currency := bd.currency
        sort_code := none
        acct_id := none
        active := false
        institution := bd.bankName
        address := String.intercalate ", "
          [baddr.addressFirstLine,
           baddr.city ++ " " ++ baddr.postCode.getD "",
           baddr.country]
        swift := bd.swift
        iban := bd.iban } := by
    simp [collectBankAccount, hbd, haddr, hcur]
  exact ⟨_, hA, rfl, rfl⟩

/-! ## Balance-credited handler (`wise_balance_credit`)

The event payload is the part of the webhook JSON the handler reads:
`data.resource.profile_id`, `data.resource.id` (the borderless account
id) and `data.currency`; each is `none` when absent anywhere along its
path (the source reads them with chained `.get(..., {})`).

The handler's collaborators are passed in: the `BankAccount` table, the
`BankTransaction` table, and the outcome of the statement fetch (the
source absorbs a failed fetch and answers 204).  The outcome records the
HTTP status (`abort(400)` is modelled as a 400 response), the resulting
transaction table, and whether a statement fetch was attempted. -/

structure CreditEvent where
  profile_id : Option Int
  borderless_account_id : Option Int
  currency : Option String
deriving DecidableEq, Repr

structure HandlerOutcome where
  status : Nat
  txns : List BankTransaction
  fetchedStatement : Bool
deriving DecidableEq, Repr

/-- The `BankAccount.query.filter_by(borderless_account_id=...,
currency=..., active=True).first()` lookup. -/
def findActiveAccount (accounts : List BankAccount) (bid : Int) (cur : String) :
    Option BankAccount :=
  accounts.find? fun a => a.borderless_account_id == bid && a.currency == cur && a.active

/-- The balance-credited handler. -/
def wise_balance_credit (accounts : List BankAccount) (txdb : List BankTransaction)
    (fetch : Except Unit (List StmtTransaction)) (event : CreditEvent) :
    HandlerOutcome :=
  match event.profile_id with
  | none => ⟨400, txdb, false⟩
  | some _ =>
    match event.borderless_account_id with
    | none => ⟨400, txdb, false⟩
    | some bid =>
      -- id 0 is the "webhook configured" sentinel event
      if bid = 0 then ⟨204, txdb, false⟩
      else
        match event.currency with
        | none => ⟨400, txdb, false⟩
        | some cur =>
          match findActiveAccount accounts bid cur with
          | none => ⟨204, txdb, false⟩
          | some acct =>
            match fetch with
            | .error _ => ⟨204, txdb, true⟩
            | .ok stmt => ⟨204, reconcile acct.id txdb stmt, true⟩

/-- C3 fails as stated: an event whose group id is 0 but whose
`profile_id` is absent is rejected with 400 (the `profile_id` check runs
first), not answered 204 — so "regardless of the other payload contents"
is too strong. -/
theorem balance_credit_zero_id_counterexample :
    wise_balance_credit [] [] (Except.error ())
        { profile_id := none, borderless_account_id := some 0, currency := none } =
      ⟨400, [], false⟩ ∧ (400 : Nat) ≠ 204 := by
  exact ⟨rfl, by decide⟩

/-- C3 amended: for every event whose `profile_id` is present and whose
group id is the literal 0, the handler answers 204, creates no
transactions and fetches no statement, regardless of the remaining
payload contents and of all database or fetch state. -/
theorem balance_credit_zero_id (accounts : List BankAccount)
    (txdb : List BankTransaction) (fetch : Except Unit (List StmtTransaction))
    (pid : Int) (cur : Option String) :
    wise_balance_credit accounts txdb fetch
        { profile_id := some pid, borderless_account_id := some 0, currency := cur } =
      ⟨204, txdb, false⟩ := by
  simp [wise_balance_credit]

/-- C5: for every credit event with complete fields and nonzero group id
such that no bank-account row has that (group id, currency) pair with
`active = true`, the handler answers 204, fetches no statement, and
leaves the transaction table unchanged. -/
theorem balance_credit_no_active_account (accounts : List BankAccount)
    (txdb : List BankTransaction) (fetch : Except Unit (List StmtTransaction))
    (pid bid : Int) (cur : String) (hbid : bid ≠ 0)
    (hno : ∀ a ∈ accounts,
      ¬(a.borderless_account_id = bid ∧ a.currency = cur ∧ a.active = true)) :
    wise_balance_credit accounts txdb fetch
        { profile_id := some pid, borderless_account_id := some bid,
          currency := some cur } =
      ⟨204, txdb, false⟩ := by
  have hfind : findActiveAccount accounts bid cur = none := by
    apply List.find?_eq_none.mpr
    intro a ha
    simp only [Bool.and_eq_true, beq_iff_eq]
    intro hcontra
    exact hno a ha ⟨hcontra.1.1, hcontra.1.2, hcontra.2⟩
  simp [wise_balance_credit, hbid, hfind]

/-- Witness for C5 at a concrete state: one inactive matching account. -/
theorem balance_credit_no_active_account_witness :
    wise_balance_credit
        [{ borderless_account_id := 7, currency := "GBP", active := false }]
        [] (Except.error ())
        { profile_id := some 1, borderless_account_id := some 7,
          currency := some "GBP" } =
      ⟨204, [], false⟩ :=
  balance_credit_no_active_account
    [{ borderless_account_id := 7, currency := "GBP", active := false }]
    [] (Except.error ()) 1 7 "GBP" (by decide) (by decide)

/-! ## Webhook receiver (`wise_webhook`)

Collaborators modelled as parameters: presence of the `X-Signature`
header, success of its base64 decode, the parsed JSON body (`none` when
the body is not JSON), the provider SDK's signature verification verdict,
the handler registry (whether a handler exists for an event type) and the
handler itself (`Except` models an exception escaping the handler, which
the receiver converts to 500).  The outcome is the HTTP status paired
with whether a handler was invoked. -/

structure WebhookJson where
  schema_version : Option String
  event_type : Option String
deriving DecidableEq, Repr

def wise_webhook (sigHeaderPresent sigDecodes : Bool) (json : Option WebhookJson)
    (validSig : Bool) (handlerKnown : Option String → Bool)
    (runHandler : Option String → WebhookJson → Except Unit Nat) : Nat × Bool :=
  if !sigHeaderPresent || !sigDecodes then (400, false)
  else
    match json with
    | none => (400, false)
    | some j =>
      if !validSig then (400, false)
      else if j.schema_version ≠ some "2.0.0" then (500, false)
      else if handlerKnown j.event_type then
        match runHandler j.event_type j with
        | .ok s => (s, true)
        | .error _ => (500, true)
      else (500, false)

/-- C4: a request that passes signature verification but whose
`schema_version` is not the string "2.0.0" (including an absent field) is
answered 500 and no event handler is invoked. -/
theorem webhook_schema_mismatch (j : WebhookJson)
    (handlerKnown : Option String → Bool)
    (runHandler : Option String → WebhookJson → Except Unit Nat)
    (hschema : j.schema_version ≠ some "2.0.0") :
    wise_webhook true true (some j) true handlerKnown runHandler = (500, false) := by
  simp [wise_webhook, hschema]

/-- Witness for C4: a well-signed request carrying schema version 1.0.0. -/
theorem webhook_schema_mismatch_witness :
    wise_webhook true true
        (some { schema_version := some "1.0.0", event_type := some "balances#credit" })
        true (fun _ => true) (fun _ _ => Except.ok 204) = (500, false) :=
  webhook_schema_mismatch
    { schema_version := some "1.0.0", event_type := some "balances#credit" }
    (fun _ => true) (fun _ _ => Except.ok 204) (by decide)

/-! ## Statement fetcher (`wise_statement`)

The provider's responses are modelled with their status code, the
`X-2FA-Approval-Result` and `X-2FA-Approval` headers (`none` when absent;
reading an absent header raises `KeyError`), and the parsed body.  The
cryptographic signing (`key.sign(..., PKCS1v15, SHA256)`) and base64
encoding are opaque parameters; `retry` gives the response to the second
request as a function of the two headers the fetcher attaches to it.  The
trace records the call's result, how many requests were issued and the
`X-Signature` / `X-2FA-Approval` headers attached to the retry. -/

structure StatementResponse where
  status : Nat
  tfaResult : Option String
  challenge : Option String
  body : List StmtTransaction
deriving DecidableEq, Repr

structure StatementTrace where
  result : Except String (List StmtTransaction)
  numRequests : Nat
  retrySignatureHeader : Option String
  retryChallengeHeader : Option String
deriving Repr

def isError {ε α : Type} : Except ε α → Bool
  | .error _ => true
  | .ok _ => false

/-- The final check of `wise_statement`: raise unless the status is 200
and the 2FA result header is present and "APPROVED". -/
def finalStatementCheck (r : StatementResponse) :
    Except String (List StmtTransaction) :=
  if r.status ≠ 200 then Except.error "Error fetching statement"
  else
    match r.tfaResult with
    | none => Except.error "KeyError: X-2FA-Approval-Result"
    | some v =>
      if v ≠ "APPROVED" then Except.error "Error fetching statement"
      else Except.ok r.body

def wise_statement (sign : String → List Nat) (b64e : List Nat → String)
    (resp1 : StatementResponse) (retry : String → String → StatementResponse) :
    StatementTrace :=
  if resp1.status = 403 then
    match resp1.tfaResult with
    | none => ⟨Except.error "KeyError: X-2FA-Approval-Result", 1, none, none⟩
    | some v =>
      if v = "REJECTED" then
        match resp1.challenge with
        | none => ⟨Except.error "KeyError: X-2FA-Approval", 1, none, none⟩
        | some c =>
          let sig := b64e (sign c)
          ⟨finalStatementCheck (retry sig c), 2, some sig, some c⟩
      else ⟨finalStatementCheck resp1, 1, none, none⟩
  else ⟨finalStatementCheck resp1, 1, none, none⟩

theorem isError_finalStatementCheck (r : StatementResponse) :
    isError (finalStatementCheck r) = true ↔
      (r.status ≠ 200 ∨ r.tfaResult ≠ some "APPROVED") := by
  unfold finalStatementCheck
  by_cases h200 : r.status = 200
  · cases hres : r.tfaResult with
    | none => simp [h200, isError]
    | some v =>
      by_cases hv : v = "APPROVED"
      · simp [h200, hv, isError]
      · simp [h200, hv, isError]
  · simp [h200, isError]

/-- C6: on a first response of 403 with 2FA result "REJECTED", the fetcher
issues exactly one retry carrying the base64-encoded signature of the
challenge and the echoed challenge, and then fails if and only if the
final response's status is not 200 or its 2FA result is not "APPROVED",
returning the parsed payload otherwise. -/
theorem wise_statement_tfa (sign : String → List Nat) (b64e : List Nat → String)
    (resp1 : StatementResponse) (retry : String → String → StatementResponse)
    (c : String) (h403 : resp1.status = 403)
    (hrej : resp1.tfaResult = some "REJECTED") (hch : resp1.challenge = some c) :
    (wise_statement sign b64e resp1 retry).numRequests = 2 ∧
    (wise_statement sign b64e resp1 retry).retrySignatureHeader =
      some (b64e (sign c)) ∧
    (wise_statement sign b64e resp1 retry).retryChallengeHeader = some c ∧
    (isError (wise_statement sign b64e resp1 retry).result = true ↔
      ((retry (b64e (sign c)) c).status ≠ 200 ∨
        (retry (b64e (sign c)) c).tfaResult ≠ some "APPROVED")) ∧
    ((retry (b64e (sign c)) c).status = 200 →
      (retry (b64e (sign c)) c).tfaResult = some "APPROVED" →
      (wise_statement sign b64e resp1 retry).result =
        Except.ok (retry (b64e (sign c)) c).body) := by
  have hW : wise_statement sign b64e resp1 retry =
      ⟨finalStatementCheck (retry (b64e (sign c)) c), 2,
        some (b64e (sign c)), some c⟩ := by
    simp [wise_statement, h403, hrej, hch]
  rw [hW]
  refine ⟨rfl, rfl, rfl, isError_finalStatementCheck _, fun h1 h2 => ?_⟩
  simp [finalStatementCheck, h1, h2]

def wSign (s : String) : List Nat := [s.length]

def wB64 (l : List Nat) : String := toString l.length

def wResp1 : StatementResponse := ⟨403, some "REJECTED", some "ch", []⟩

def wRetry (_sig _c : String) : StatementResponse := ⟨200, some "APPROVED", none, []⟩

/-- Witness for C6 at a concrete challenge and approving retry. -/
theorem wise_statement_tfa_witness :
    (wise_statement wSign wB64 wResp1 wRetry).numRequests = 2 ∧
    (wise_statement wSign wB64 wResp1 wRetry).retrySignatureHeader =
      some (wB64 (wSign "ch")) ∧
    (wise_statement wSign wB64 wResp1 wRetry).retryChallengeHeader = some "ch" ∧
    (isError (wise_statement wSign wB64 wResp1 wRetry).result = true ↔
      ((wRetry (wB64 (wSign "ch")) "ch").status ≠ 200 ∨
        (wRetry (wB64 (wSign "ch")) "ch").tfaResult ≠ some "APPROVED")) ∧
    ((wRetry (wB64 (wSign "ch")) "ch").status = 200 →
      (wRetry (wB64 (wSign "ch")) "ch").tfaResult = some "APPROVED" →
      (wise_statement wSign wB64 wResp1 wRetry).result =
        Except.ok (wRetry (wB64 (wSign "ch")) "ch").body) :=
  wise_statement_tfa wSign wB64 wResp1 wRetry "ch" rfl rfl rfl

/-! ## Business-profile resolution (`wise_business_profile`)

Inputs are the configured `TRANSFERWISE_PROFILE_ID` (`none` when the
config entry is absent or falsy), the borderless-account listing for the
configured id, and the provider's profile listing.  `Except.error` models
an exception escaping the function (including the `IndexError` from
`profiles[0]` on an empty list). -/

structure WiseProfile where
  id : Int
  type : String
deriving DecidableEq, Repr

def wise_business_profile (configured : Option Int) (borderless_accounts : List Int)
    (profiles : List WiseProfile) : Except String Int :=
  match configured with
  | some pid =>
    if borderless_accounts.length = 0 then
      Except.error "Provided TRANSFERWISE_PROFILE_ID has no accoutns"
    else Except.ok pid
  | none =>
    let ps := profiles.filter fun p => p.type == "business"
    if ps.length > 1 then Except.error "Multiple business profiles found"
    else
      match ps with
      | [] => Except.error "IndexError: list index out of range"
      | p :: _ => Except.ok p.id

/-- C9: with no configured profile id and zero business-type profiles in
the listing, resolution raises (the out-of-range `profiles[0]` access); it
does not return an id or a sentinel. -/
theorem business_profile_empty (bas : List Int) (profiles : List WiseProfile)
    (h : (profiles.filter fun p => p.type == "business").length = 0) :
    wise_business_profile none bas profiles =
      Except.error "IndexError: list index out of range" := by
  have hnil : (profiles.filter fun p => p.type == "business") = [] :=
    List.length_eq_zero.mp h
  simp [wise_business_profile, hnil]

/-- Witness for C9: a listing containing only a personal profile. -/
theorem business_profile_empty_witness :
    wise_business_profile none [] [{ id := 5, type := "personal" }] =
      Except.error "IndexError: list index out of range" :=
  business_profile_empty [] [{ id := 5, type := "personal" }] (by decide)

/-! ## Health check (`wise_validate`)

Config and connectivity are parameters: the environment name, the API
token, whether `client.users.me()` succeeds (with the exception's text
when not), the inputs of `wise_business_profile`, and whether the
subscription listing is non-empty.  An `Except.error` result models the
uncaught exception when profile resolution raises.  The three tails
mirror the source's sequential probes. -/

def validateTail3 (configured : Option Int) (bas : List Int)
    (profiles : List WiseProfile) (webhooksPresent : Bool)
    (acc : List (Bool × String)) : Except String (List (Bool × String)) :=
  match wise_business_profile configured bas profiles with
  | Except.error e => Except.error e
  | Except.ok p =>
    let acc2 := acc ++ [if p ≠ 0 then (true, "Wise business profile exists")
                        else (false, "Wise business profile does not exist")]
    Except.ok (acc2 ++ [if webhooksPresent
                        then (true, "Webhook event subscriptions are present")
                        else (false, "Webhook event subscriptions are not present")])

def validateTail2 (apiOk : Bool) (apiErr : String) (configured : Option Int)
    (bas : List Int) (profiles : List WiseProfile) (webhooksPresent : Bool)
    (acc : List (Bool × String)) : Except String (List (Bool × String)) :=
  if apiOk then
    validateTail3 configured bas profiles webhooksPresent
      (acc ++ [(true, "Connection to Wise API succeeded")])
  else Except.ok (acc ++ [(false, "Unable to connect to Wise: " ++ apiErr)])

def validateTail1 (token : Option String) (apiOk : Bool) (apiErr : String)
    (configured : Option Int) (bas : List Int) (profiles : List WiseProfile)
    (webhooksPresent : Bool) (acc : List (Bool × String)) :
    Except String (List (Bool × String)) :=
  if (token.getD "").length = 36 then
    validateTail2 apiOk apiErr configured bas profiles webhooksPresent
      (acc ++ [(true, "Access token set")])
  else Except.ok (acc ++ [(false, "Access token not set")])

def wise_validate (env : Option String) (token : Option String) (apiOk : Bool)
    (apiErr : String) (configured : Option Int) (bas : List Int)
    (profiles : List WiseProfile) (webhooksPresent : Bool) :
    Except String (List (Bool × String)) :=
  if env = some "sandbox" then
    validateTail1 token apiOk apiErr configured bas profiles webhooksPresent
      [(true, "Sandbox environment being used")]
  else if env = some "live" then
    validateTail1 token apiOk apiErr configured bas profiles webhooksPresent
      [(true, "Live environment being used")]
  else Except.ok [(false, "No environment configured")]

/-- A 36-character API token used in concrete health-check states. -/
def tok36 : String := "ABCDEF0123456789ABCDEF0123456789ABCD"

/-- The report the health check produces when the first three probes pass,
the business profile resolves to the falsy id 0, and subscriptions exist. -/
def failedProfileReport : List (Bool × String) :=
  [(true, "Sandbox environment being used"),
   (true, "Access token set"),
   (true, "Connection to Wise API succeeded"),
   (false, "Wise business profile does not exist"),
   (true, "Webhook event subscriptions are present")]

/-- C8 fails as stated: when the business-profile probe fails (profile id
resolves to the falsy 0), the report does not end there — the
webhook-subscription probe is still attempted, so the report has five
entries with a failure in fourth position. -/
theorem validate_stops_counterexample :
    wise_validate (some "sandbox") (some tok36) true "" none []
        [{ id := 0, type := "business" }] true =
      Except.ok failedProfileReport ∧
    failedProfileReport.get? 3 = some (false, "Wise business profile does not exist") ∧
    failedProfileReport.length = 5 := by
  exact ⟨rfl, rfl, rfl⟩

/-- C8 amended: the probes run in the order environment, token, live API
call, business profile, webhook subscriptions, appending one
(boolean, message) pair per probe attempted; each of the first three
probes ends the report on failure, but once they pass both remaining
probes always run — a failed business-profile probe does not end the
report.  (When profile resolution raises instead of returning, the
exception propagates and no report is produced.) -/
theorem validate_probe_sequence (env token : Option String) (apiOk : Bool)
    (apiErr : String) (configured : Option Int) (bas : List Int)
    (profiles : List WiseProfile) (wh : Bool) (p : Int)
    (hp : wise_business_profile configured bas profiles = Except.ok p) :
    (env ≠ some "sandbox" → env ≠ some "live" →
      wise_validate env token apiOk apiErr configured bas profiles wh =
        Except.ok [(false, "No environment configured")]) ∧
    ((env = some "sandbox" ∨ env = some "live") →
      (token.getD "").length ≠ 36 →
      ∃ m, wise_validate env token apiOk apiErr configured bas profiles wh =
        Except.ok [(true, m), (false, "Access token not set")]) ∧
    ((env = some "sandbox" ∨ env = some "live") →
      (token.getD "").length = 36 → apiOk = false →
      ∃ m, wise_validate env token apiOk apiErr configured bas profiles wh =
        Except.ok [(true, m), (true, "Access token set"),
          (false, "Unable to connect to Wise: " ++ apiErr)]) ∧
    ((env = some "sandbox" ∨ env = some "live") →
      (token.getD "").length = 36 → apiOk = true →
      ∃ m, wise_validate env token apiOk apiErr configured bas profiles wh =
        Except.ok [(true, m), (true, "Access token set"),
          (true, "Connection to Wise API succeeded"),
          (if p ≠ 0 then (true, "Wise business profile exists")
           else (false, "Wise business profile does not exist")),
          (if wh then (true, "Webhook event subscriptions are present")
           else (false, "Webhook event subscriptions are not present"))]) := by
  refine ⟨fun h1 h2 => ?_, fun henv htok => ?_, fun henv htok hapi => ?_,
    fun henv htok hapi => ?_⟩
  · simp [wise_validate, h1, h2]
  · rcases henv with h | h
    · exact ⟨"Sandbox environment being used",
        by simp [wise_validate, h, validateTail1, htok]⟩
    · exact ⟨"Live environment being used",
        by simp [wise_validate, h, validateTail1, htok]⟩
  · rcases henv with h | h
    · exact ⟨"Sandbox environment being used",
        by simp [wise_validate, h, validateTail1, validateTail2, htok, hapi]⟩
    · exact ⟨"Live environment being used",
        by simp [wise_validate, h, validateTail1, validateTail2, htok, hapi]⟩
  · rcases henv with h | h
    · exact ⟨"Sandbox environment being used",
        by simp [wise_validate, h, validateTail1, validateTail2, validateTail3,
          htok, hapi, hp]⟩
    · exact ⟨"Live environment being used",
        by simp [wise_validate, h, validateTail1, validateTail2, validateTail3,
          htok, hapi, hp]⟩

/-- Witness for the amended C8 at a concrete passing configuration. -/
theorem validate_probe_sequence_witness :
    ∃ m, wise_validate (some "live") (some tok36) true "x" (some 3) [1] [] true =
      Except.ok [(true, m), (true, "Access token set"),
        (true, "Connection to Wise API succeeded"),
        (if (3 : Int) ≠ 0 then (true, "Wise business profile exists")
         else (false, "Wise business profile does not exist")),
        (if true then (true, "Webhook event subscriptions are present")
         else (false, "Webhook event subscriptions are not present"))] :=
  (validate_probe_sequence (some "live") (some tok36) true "x" (some 3) [1] []
      true 3 rfl).2.2.2 (Or.inr rfl) (by decide) rfl

/-- C10: once the environment probe passes (and profile resolution
returns, so that a report exists at all), the token probe succeeds if and
only if the configured token — the empty string when absent — has length
exactly 36; nothing else about the token is consulted. -/
theorem validate_token_probe (env token : Option String) (apiOk : Bool)
    (apiErr : String) (configured : Option Int) (bas : List Int)
    (profiles : List WiseProfile) (wh : Bool) (p : Int)
    (henv : env = some "sandbox" ∨ env = some "live")
    (hp : wise_business_profile configured bas profiles = Except.ok p) :
    ∃ l, wise_validate env token apiOk apiErr configured bas profiles wh =
        Except.ok l ∧
      (l.get? 1 = some (true, "Access token set") ↔ (token.getD "").length = 36) ∧
      ((token.getD "").length ≠ 36 →
        l.get? 1 = some (false, "Access token not set")) := by
  have henvE : ∃ m, wise_validate env token apiOk apiErr configured bas profiles wh =
      validateTail1 token apiOk apiErr configured bas profiles wh [(true, m)] := by
    rcases henv with h | h
    · exact ⟨"Sandbox environment being used", by simp [wise_validate, h]⟩
    · exact ⟨"Live environment being used", by simp [wise_validate, h]⟩
  rcases henvE with ⟨m, hm⟩
  by_cases htok : (token.getD "").length = 36
  · have hrest : ∃ rest, validateTail2 apiOk apiErr configured bas profiles wh
        ([(true, m)] ++ [(true, "Access token set")]) =
        Except.ok ((true, m) :: (true, "Access token set") :: rest) := by
      by_cases hapi : apiOk
      · exact ⟨[(true, "Connection to Wise API succeeded"),
          (if p ≠ 0 then (true, "Wise business profile exists")
           else (false, "Wise business profile does not exist")),
          (if wh then (true, "Webhook event subscriptions are present")
           else (false, "Webhook event subscriptions are not present"))],
          by simp [validateTail2, validateTail3, hapi, hp]⟩
      · exact ⟨[(false, "Unable to connect to Wise: " ++ apiErr)],
          by simp [validateTail2, hapi]⟩
    rcases hrest with ⟨rest, hrest⟩
    refine ⟨(true, m) :: (true, "Access token set") :: rest, ?_, ?_, fun hc => absurd htok hc⟩
    · rw [hm]
      simp only [validateTail1, htok, if_pos]
      exact hrest
    · simp [htok]
  · refine ⟨[(true, m), (false, "Access token not set")], ?_, ?_, fun _ => rfl⟩
    · rw [hm]
      simp [validateTail1, htok]
    · simp [htok]

/-- Witness for C10: an absent token fails the probe in a sandbox setup. -/
theorem validate_token_probe_witness :
    ∃ l, wise_validate (some "sandbox") none false "e" (some 3) [1] [] false =
        Except.ok l ∧
      (l.get? 1 = some (true, "Access token set") ↔
        (((none : Option String).getD "")).length = 36) ∧
      ((((none : Option String).getD "")).length ≠ 36 →
        l.get? 1 = some (false, "Access token not set")) :=
  validate_token_probe (some "sandbox") none false "e" (some 3) [1] [] false 3
    (Or.inl rfl) rfl

/-! ## Concrete discovery states for witnesses -/

def wAddr : BankAddress :=
  { addressFirstLine := "56 Shoreditch High Street", city := "London",
    postCode := some "E1 6JJ", country := "GB" }

def wGbpDetails : BankDetails :=
  { currency := "GBP", bankCode := "231470",
    accountNumber := "GB11 CLRB 0400 5112 3456 78", bankName := "Wise",
    bankAddress := some wAddr, swift := none,
    iban := some "GB11 CLRB 0400 5112 3456 78" }

def wGbpBalance : Balance := { bankDetails := some wGbpDetails }

def wBorderless : BorderlessAccount := { id := 77, balances := [wGbpBalance] }

def wEurDetails : BankDetails :=
  { currency := "EUR", bankCode := "TRWIBEB1XXX",
    accountNumber := "BE79 9670 0387 0467", bankName := "Wise",
    bankAddress := some wAddr, swift := some "TRWIBEB1XXX",
    iban := some "BE79 9670 0387 0467" }

def wEurBalance : Balance := { bankDetails := some wEurDetails }

/-- Witness for C2: a GBP balance whose raw account number is an
IBAN-like string with spaces. -/
theorem collect_gbp_fields_witness :
    ∃ a, collectBankAccount wBorderless.id wGbpBalance = some a ∧
      a ∈ collect_bank_accounts wBorderless ∧
      a.sort_code = some wGbpDetails.bankCode ∧
      a.acct_id = some (specGbpAccountNumber wGbpDetails.accountNumber) :=
  collect_gbp_fields wBorderless wGbpBalance wGbpDetails wAddr
    (by simp [wBorderless]) rfl rfl rfl

/-- Witness for C7: a EUR balance with full bank details. -/
theorem collect_non_gbp_fields_witness :
    ∃ a, collectBankAccount 77 wEurBalance = some a ∧
      a.sort_code = none ∧ a.acct_id = none :=
  collect_non_gbp_fields 77 wEurBalance wEurDetails wAddr rfl rfl (by decide)
